import Mathlib

/-!
# Shallow embedding of `pytils/json_helpers.py`

This file embeds the polymorphic JSON serialization layer of the `pytils`
repository (`src/pytils/json_helpers.py`) and proves properties of it.

Modelling conventions:

* Python runtime values that can flow through the encoder/decoder are
  `PyValue`: `None`, booleans, integers, strings, lists, plain dicts
  (association lists keyed by strings, as produced by the `json` module),
  `JSONSerializable` instances (represented by the fqcn of their class and
  their `__dict__` as an association list) and `JSONEnum` members
  (represented by the fqcn of their enum class, their declared name, and
  their underlying value).
* The JSON text layer (`json.dumps`/`json.loads` tokenization) is the
  external collaborator the spec excludes; it is modelled by the JSON tree
  (`JSON`) that the text determines.  `default_json_dumps` is embedded as
  the map from a value to the JSON tree the encoder emits, and
  `default_json_loads` as the map from a JSON tree to the decoded value,
  with the decoder hook applied to every object node innermost-first,
  exactly as `json.loads(..., object_hook=...)` does.
* The process-wide registry `_type_map` is explicit state: an association
  list from fqcn strings to class descriptors (`ClassDesc`), insertion at
  the end mirroring Python dict insertion order.
* Exceptions become `Except`: the `KeyError` raised by `_type_map[cls_type]`
  on an unregistered tag is `DecodeError.unknownType` (the spec's
  `UnknownTypeError`); the `KeyError` raised by `cls[obj['name']]` for an
  unknown enum member name is `DecodeError.unknownMember` (the spec's
  `UnknownMemberError`); the `KeyError` raised by `obj['name']` when the
  key is absent is `DecodeError.missingKey`; a `TypeError` from calling a
  constructor with a required parameter missing is
  `DecodeError.constructionError`.
-/

namespace Pytils

/-- Python values that participate in encoding/decoding.  An `inst` carries
the fqcn of its class and its `__dict__` (insertion-ordered association
list); an `enumMember` is a declared enum singleton, identified by the fqcn
of its enum class and its declared name (its underlying value lives in the
class's member table, which serialization never reads: `JSONEnum.to_dict`
reads only `self._cls_type_` and `self.name`). -/
inductive PyValue : Type where
  | none : PyValue
  | bool : Bool → PyValue
  | int : Int → PyValue
  | str : String → PyValue
  | list : List PyValue → PyValue
  | dict : List (String × PyValue) → PyValue
  | inst : String → List (String × PyValue) → PyValue
  | enumMember : String → String → PyValue

/-- JSON trees, the interface to the external text layer. -/
inductive JSON : Type where
  | null : JSON
  | bool : Bool → JSON
  | int : Int → JSON
  | str : String → JSON
  | arr : List JSON → JSON
  | obj : List (String × JSON) → JSON

/-- `PyValue.isStr v = true` iff `isinstance(v, str)` holds in Python. -/
def PyValue.isStr : PyValue → Bool
  | .str _ => true
  | _ => false

/-- Registered type descriptors.  A `data` descriptor is a
`JSONSerializable` class: its fqcn together with the parameter names of its
constructor signature (`inspect.signature(cls).parameters`).  An `enum`
descriptor is a `JSONEnum` class: its fqcn together with its declared
members (name/value pairs, names unique by Python's `Enum` semantics). -/
inductive ClassDesc : Type where
  | data : String → List String → ClassDesc
  | enum : String → List (String × PyValue) → ClassDesc

/-- `cls.fqcn()` of a registered class, from its descriptor. -/
def ClassDesc.fqcn : ClassDesc → String
  | .data f _ => f
  | .enum f _ => f

/-- The process-wide `_type_map`, made explicit. -/
abbrev TypeMap : Type := List (String × ClassDesc)

/-- `json_register_class(cls)`: insert `cls` under `cls.fqcn()` only if the
fqcn is not yet a key of `_type_map` (`if fqcn not in _type_map`). -/
def json_register_class (cls : ClassDesc) (m : TypeMap) : TypeMap :=
  if (List.lookup cls.fqcn m).isSome then m else m ++ [(cls.fqcn, cls)]

/-- `JSONSerializable.to_dict`: `return self.__dict__` — the instance's own
field mapping (for the value-level pipeline only its entries matter; the
aliasing aspect is modelled separately in the heap model below). -/
def JSONSerializable.to_dict (fields : List (String × PyValue)) :
    List (String × PyValue) :=
  fields

/-- `JSONEnum.to_dict`: `{"_cls_type_": self._cls_type_, "name": self.name}`.
`self._cls_type_` was set to the class fqcn at member definition time; the
member's underlying value is not an input. -/
def JSONEnum.to_dict (cls name : String) : List (String × PyValue) :=
  [("_cls_type_", .str cls), ("name", .str name)]

mutual

/-- `default_json_dumps` composed with the external JSON text layer: the
JSON tree that `json.dumps(obj, cls=DefaultJSONEncoder)` serializes.
Primitives and containers are the `json` module's native behavior;
`JSONSerializable` and `JSONEnum` values go through `DefaultJSONEncoder
.default`, which returns `o.to_dict()` for recursive processing. -/
def encodeValue : PyValue → JSON
  | .none => .null
  | .bool b => .bool b
  | .int n => .int n
  | .str s => .str s
  | .list l => .arr (encodeList l)
  | .dict d => .obj (encodeEntries d)
  | .inst _ fields => .obj (encodeEntries fields)
  | .enumMember cls n =>
    .obj [("_cls_type_", .str cls), ("name", .str n)]

/-- Elementwise encoding of a Python list. -/
def encodeList : List PyValue → List JSON
  | [] => []
  | v :: vs => encodeValue v :: encodeList vs

/-- Entrywise encoding of a Python dict's items. -/
def encodeEntries : List (String × PyValue) → List (String × JSON)
  | [] => []
  | (k, v) :: rest => (k, encodeValue v) :: encodeEntries rest

end

/-- Decode failures (Python exceptions surfaced by `default_json_loads`):
`unknownType` is the `KeyError` from `_type_map[cls_type]` (the spec's
`UnknownTypeError`); `unknownMember` is the `KeyError` from
`cls[obj['name']]` (the spec's `UnknownMemberError`); `missingKey` is the
`KeyError` from `obj['name']` when `'name'` is absent; `constructionError`
is the `TypeError` from `cls(**filtered_args)` when a required constructor
parameter is missing. -/
inductive DecodeError : Type where
  | unknownType : String → DecodeError
  | unknownMember : PyValue → DecodeError
  | missingKey : String → DecodeError
  | constructionError : String → DecodeError

/-- The dict comprehension in `JSONSerializable.from_dict`:
`{k: v for k, v in obj.items() if k in sig.parameters}`. -/
def filtered_args (params : List String) (obj : List (String × PyValue)) :
    List (String × PyValue) :=
  obj.filter (fun p => params.contains p.1)

/-- Bind each constructor parameter, in signature order, to its value in
the keyword-argument mapping; `Option.none` when a parameter is absent
(Python raises `TypeError` for a missing required argument). -/
def bindParams (args : List (String × PyValue)) :
    List String → Option (List (String × PyValue))
  | [] => some []
  | p :: ps =>
    match List.lookup p args, bindParams args ps with
    | some v, some rest => some ((p, v) :: rest)
    | _, _ => Option.none

/-- Calling `cls(**args)` for a `JSONSerializable` class whose state is set
only from constructor parameters: `JSONSerializable.__init__` stores the
fqcn under the reserved key, then the constructor body stores each
parameter as a field, in signature order. -/
def construct (fqcn : String) (params : List String)
    (args : List (String × PyValue)) : Except DecodeError PyValue :=
  match bindParams args params with
  | some bound => .ok (.inst fqcn (("_cls_type_", .str fqcn) :: bound))
  | Option.none => .error (.constructionError fqcn)

/-- `JSONSerializable.from_dict` (default): filter `obj` down to the keys
that are constructor parameters and call the constructor on them. -/
def JSONSerializable.from_dict (fqcn : String) (params : List String)
    (obj : List (String × PyValue)) : Except DecodeError PyValue :=
  construct fqcn params (filtered_args params obj)

/-- `JSONEnum.from_dict`: `return cls[obj['name']]` — a name-based lookup
against the declared members; any argument to `cls[...]` that is not the
name of a declared member raises `KeyError` (non-string arguments never
match a name). -/
def JSONEnum.from_dict (fqcn : String) (members : List (String × PyValue))
    (obj : List (String × PyValue)) : Except DecodeError PyValue :=
  match List.lookup "name" obj with
  | Option.none => .error (.missingKey "name")
  | some nv =>
    match nv with
    | .str n =>
      if (List.lookup n members).isSome then .ok (.enumMember fqcn n)
      else .error (.unknownMember (.str n))
    | other => .error (.unknownMember other)

/-- Dispatch `cls.from_dict(o)` through the class descriptor found in the
registry. -/
def ClassDesc.from_dict (cls : ClassDesc)
    (o : List (String × PyValue)) : Except DecodeError PyValue :=
  match cls with
  | .data f params => JSONSerializable.from_dict f params o
  | .enum f members => JSONEnum.from_dict f members o

/-- `DefaultJSONDecoder.as_json_serializable`, the object hook: if the
mapping contains `'_cls_type_'` with a string value, resolve it through
`_type_map` (a miss is the `KeyError` modelled as `unknownType`) and invoke
the class's `from_dict`; otherwise return the mapping unchanged. -/
def as_json_serializable (reg : TypeMap) (o : List (String × PyValue)) :
    Except DecodeError PyValue :=
  match List.lookup "_cls_type_" o with
  | some cls_type =>
    match cls_type with
    | .str s =>
      match List.lookup s reg with
      | some cls => cls.from_dict o
      | Option.none => .error (.unknownType s)
    | _ => .ok (.dict o)
  | Option.none => .ok (.dict o)

mutual

/-- `default_json_loads` composed with the external JSON text layer:
`json.loads(text, cls=DefaultJSONDecoder)` parses the text into this tree
and applies the object hook to every object node, innermost first. -/
def decodeJSON (reg : TypeMap) : JSON → Except DecodeError PyValue
  | .null => .ok .none
  | .bool b => .ok (.bool b)
  | .int n => .ok (.int n)
  | .str s => .ok (.str s)
  | .arr l =>
    match decodeList reg l with
    | .ok vs => .ok (.list vs)
    | .error e => .error e
  | .obj l =>
    match decodeEntries reg l with
    | .ok d => as_json_serializable reg d
    | .error e => .error e

/-- Elementwise decoding of a JSON array. -/
def decodeList (reg : TypeMap) : List JSON → Except DecodeError (List PyValue)
  | [] => .ok []
  | j :: js =>
    match decodeJSON reg j, decodeList reg js with
    | .ok v, .ok vs => .ok (v :: vs)
    | .error e, _ => .error e
    | _, .error e => .error e

/-- Entrywise decoding of a JSON object's entries (values are hooked before
the containing object is). -/
def decodeEntries (reg : TypeMap) :
    List (String × JSON) → Except DecodeError (List (String × PyValue))
  | [] => .ok []
  | (k, j) :: rest =>
    match decodeJSON reg j, decodeEntries reg rest with
    | .ok v, .ok d => .ok ((k, v) :: d)
    | .error e, _ => .error e
    | _, .error e => .error e

end

/-- `default_json_dumps(obj)` up to the external text layer: the JSON tree
the emitted text denotes. -/
def default_json_dumps (obj : PyValue) : JSON :=
  encodeValue obj

/-- `default_json_loads(json_string)` up to the external text layer, with
the registry state explicit. -/
def default_json_loads (reg : TypeMap) (tree : JSON) :
    Except DecodeError PyValue :=
  decodeJSON reg tree

mutual

/-- Well-formedness of a runtime value with respect to a registry state:
every `inst` is an instance of a registered data class whose state was set
only from constructor parameters (fields are exactly the reserved key
holding the fqcn followed by one field per constructor parameter, the
reserved key is not a parameter name, parameter names are distinct); every
`enumMember` is a declared member of a registered enum class; plain dicts
do not use the reserved key (the spec's reserved-namespace invariant); and
the same holds recursively. -/
def wfVal (reg : TypeMap) : PyValue → Bool
  | .none => true
  | .bool _ => true
  | .int _ => true
  | .str _ => true
  | .list l => wfList reg l
  | .dict d => (List.lookup "_cls_type_" d).isNone && wfEntries reg d
  | .inst cls fields =>
    match List.lookup cls reg, fields with
    | some (.data f params), ("_cls_type_", .str tag) :: rest =>
      (f = cls : Bool) && (tag = cls : Bool) &&
        (rest.map Prod.fst = params : Bool) &&
        decide (("_cls_type_" :: params).Nodup) && wfEntries reg rest
    | _, _ => false
  | .enumMember cls n =>
    match List.lookup cls reg with
    | some (.enum f members) =>
      (f = cls : Bool) && (List.lookup n members).isSome
    | _ => false

/-- Well-formedness of every element of a list. -/
def wfList (reg : TypeMap) : List PyValue → Bool
  | [] => true
  | v :: vs => wfVal reg v && wfList reg vs

/-- Well-formedness of every value of an association list. -/
def wfEntries (reg : TypeMap) : List (String × PyValue) → Bool
  | [] => true
  | (_, v) :: rest => wfVal reg v && wfEntries reg rest

end

/-! ## Storage-level model of the default `to_dict`

The value-level pipeline above cannot distinguish `return self.__dict__`
from `return dict(self.__dict__)`.  To settle whether the default
`to_dict` returns a copy, object identity is made explicit: every
instance's `__dict__` lives at an address in a store, an instance is the
address of its `__dict__`, and `to_dict` returns an address. -/

/-- Store of `__dict__` mappings, addressed by object identity. -/
structure PyHeap : Type where
  dicts : Nat → List (String × PyValue)

/-- `JSONSerializable.to_dict` at the storage level: `return self.__dict__`
hands back the address of the very mapping that stores the fields of
`self` — no allocation, no copying. -/
def to_dict_ref (self : Nat) : Nat := self

/-- `d[k] = v` on an association list: overwrite the first entry whose key
is `k`, else append. -/
def setEntry : List (String × PyValue) → String → PyValue → List (String × PyValue)
  | [], k, v => [(k, v)]
  | (k', v') :: rest, k, v =>
    if k' = k then (k, v) :: rest else (k', v') :: setEntry rest k v

/-- `d[k] = v` through a dict reference: mutate the dict at `addr`. -/
def heapSet (h : PyHeap) (addr : Nat) (k : String) (v : PyValue) : PyHeap :=
  ⟨fun a => if a = addr then setEntry (h.dicts a) k v else h.dicts a⟩

/-! ## Concrete fixtures (used by witnesses and counterexamples)

The shapes mirror the classes of `test/test_json_helpers.py`:
`ExampleJSONSerializable` with constructor parameter `string`, and
`ExampleEnum` with members `ONE` and `TWO`. -/

/-- Registry fixture holding one data class and one enum class. -/
def exampleReg : TypeMap :=
  [("tests#ExampleJSONSerializable",
      .data "tests#ExampleJSONSerializable" ["string"]),
   ("tests#ExampleEnum", .enum "tests#ExampleEnum" [("ONE", .int 1), ("TWO", .int 2)])]

/-- Instance fixture: fields exactly as the constructor writes them. -/
def exampleInst : PyValue :=
  .inst "tests#ExampleJSONSerializable"
    [("_cls_type_", .str "tests#ExampleJSONSerializable"),
     ("string", .str "Hello")]

/-- Instance fixture whose constructor-parameter value is a plain dict that
uses the reserved key with a registered identifier.  Its state is set only
from constructor parameters, yet the decoder hook, which fires on every
decoded mapping, turns the inner plain dict into an instance. -/
def collidingInst : PyValue :=
  .inst "tests#ExampleJSONSerializable"
    [("_cls_type_", .str "tests#ExampleJSONSerializable"),
     ("string", .dict
        [("_cls_type_", .str "tests#ExampleJSONSerializable"),
         ("string", .str "x")])]

/-- What `collidingInst` actually decodes back to: the inner plain dict has
become a reconstructed instance. -/
def collidingInstDecoded : PyValue :=
  .inst "tests#ExampleJSONSerializable"
    [("_cls_type_", .str "tests#ExampleJSONSerializable"),
     ("string", .inst "tests#ExampleJSONSerializable"
        [("_cls_type_", .str "tests#ExampleJSONSerializable"),
         ("string", .str "x")])]

/-- Heap fixture: the instance at address 0 has two fields. -/
def exampleHeap : PyHeap :=
  ⟨fun _ => [("_cls_type_", .str "tests#ExampleJSONSerializable"),
             ("string", .str "bar")]⟩

/-! ## Supporting lemmas -/

/-- First-entry lookup at the head key. -/
theorem lookup_cons_self {β : Type} (k : String) (v : β) (l : List (String × β)) :
    List.lookup k ((k, v) :: l) = some v := by
  simp [List.lookup]

/-- Lookup skips a head entry with a different key. -/
theorem lookup_cons_ne {β : Type} {k k' : String} (h : ¬ k = k') (v : β)
    (l : List (String × β)) : List.lookup k ((k', v) :: l) = List.lookup k l := by
  simp [List.lookup, beq_false_of_ne h]

/-- A keyword argument whose name is bound by no parameter does not affect
parameter binding. -/
theorem bindParams_cons_not_mem (t : List (String × PyValue)) (p : String)
    (v : PyValue) (qs : List String) (h : p ∉ qs) :
    bindParams ((p, v) :: t) qs = bindParams t qs := by
  induction qs with
  | nil => rfl
  | cons q qs ih =>
    have hq : ¬ q = p := by
      rintro rfl
      exact h (List.mem_cons_self _ _)
    simp only [bindParams, lookup_cons_ne hq,
      ih (fun m => h (List.mem_cons_of_mem _ m))]

/-- Binding the parameters named by an argument list with distinct names
reproduces the argument list. -/
theorem bindParams_self : (l : List (String × PyValue)) → (l.map Prod.fst).Nodup →
    bindParams l (l.map Prod.fst) = some l
  | [], _ => rfl
  | (p, v) :: t, h => by
    rw [List.map_cons, List.nodup_cons] at h
    simp only [List.map_cons, bindParams, lookup_cons_self,
      bindParams_cons_not_mem t p v _ h.1, bindParams_self t h.2]

/-- Filtering a constructor-built field list down to the constructor
parameters drops exactly the reserved-key entry. -/
theorem filtered_args_inst (params : List String) (x : PyValue)
    (rest : List (String × PyValue)) (hres : "_cls_type_" ∉ params)
    (hkeys : rest.map Prod.fst = params) :
    filtered_args params (("_cls_type_", x) :: rest) = rest := by
  unfold filtered_args
  rw [List.filter_cons]
  have hc : params.contains "_cls_type_" = false := by simp [hres]
  simp only [hc, if_false, Bool.false_eq_true]
  rw [List.filter_eq_self]
  intro a ha
  have : a.1 ∈ params := hkeys ▸ List.mem_map_of_mem Prod.fst ha
  simp [this]

mutual

/-- A well-formed value decodes back from its encoding. -/
theorem roundtrip_val (reg : TypeMap) : (v : PyValue) → wfVal reg v = true →
    decodeJSON reg (encodeValue v) = .ok v
  | .none, _ => rfl
  | .bool _, _ => rfl
  | .int _, _ => rfl
  | .str _, _ => rfl
  | .list l, h => by
    have hl : wfList reg l = true := by simpa [wfVal] using h
    simp [encodeValue, decodeJSON, roundtrip_list reg l hl]
  | .dict d, h => by
    rw [wfVal, Bool.and_eq_true] at h
    have hn : List.lookup "_cls_type_" d = Option.none :=
      Option.isNone_iff_eq_none.mp h.1
    simp [encodeValue, decodeJSON, roundtrip_entries reg d h.2,
      as_json_serializable, hn]
  | .inst cls fields, h => by
    rw [wfVal.eq_def] at h
    simp only [] at h
    split at h
    case _ f params tag rest heq =>
      simp only [Bool.and_eq_true, decide_eq_true_eq] at h
      obtain ⟨⟨⟨⟨hf, htag⟩, hkeys⟩, hnodup⟩, hwf⟩ := h
      rw [List.nodup_cons] at hnodup
      have hfieldswf :
          wfEntries reg (("_cls_type_", PyValue.str cls) :: rest) = true := by
        simp [wfEntries, wfVal, hwf]
      have hrestnd : (rest.map Prod.fst).Nodup := by
        rw [hkeys]
        exact hnodup.2
      have hbind : bindParams rest params = some rest := by
        rw [← hkeys]
        exact bindParams_self rest hrestnd
      simp [encodeValue, decodeJSON, roundtrip_entries reg _ hfieldswf,
        as_json_serializable, lookup_cons_self, htag, hf, heq, ClassDesc.from_dict,
        JSONSerializable.from_dict,
        filtered_args_inst params (PyValue.str tag) rest hnodup.1 hkeys,
        filtered_args_inst params (PyValue.str cls) rest hnodup.1 hkeys,
        construct, hbind]
    case _ =>
      simp at h
  | .enumMember cls n, h => by
    rw [wfVal.eq_def] at h
    simp only [] at h
    split at h
    case _ f members heq =>
      simp only [Bool.and_eq_true, decide_eq_true_eq] at h
      obtain ⟨hf, hsome⟩ := h
      subst hf
      have hne : ¬ "name" = "_cls_type_" := by decide
      simp [encodeValue, decodeJSON, decodeEntries, as_json_serializable,
        lookup_cons_self, lookup_cons_ne hne, heq, ClassDesc.from_dict,
        JSONEnum.from_dict, hsome]
    case _ =>
      simp at h

/-- Elementwise round trip for lists. -/
theorem roundtrip_list (reg : TypeMap) : (l : List PyValue) → wfList reg l = true →
    decodeList reg (encodeList l) = .ok l
  | [], _ => rfl
  | v :: vs, h => by
    rw [wfList, Bool.and_eq_true] at h
    simp [encodeList, decodeList, roundtrip_val reg v h.1, roundtrip_list reg vs h.2]

/-- Entrywise round trip for object entries. -/
theorem roundtrip_entries (reg : TypeMap) :
    (d : List (String × PyValue)) → wfEntries reg d = true →
    decodeEntries reg (encodeEntries d) = .ok d
  | [], _ => rfl
  | (k, v) :: rest, h => by
    rw [wfEntries, Bool.and_eq_true] at h
    simp [encodeEntries, decodeEntries, roundtrip_val reg v h.1,
      roundtrip_entries reg rest h.2]

end

end Pytils

namespace Pytils

/-! ## Claims -/

/-- C1 counterexample: `collidingInst` has its state set only from
constructor parameters (its one parameter value is a plain dict that uses
the reserved key with a registered identifier), yet decoding its encoding
yields an instance whose `string` field is a reconstructed instance, not
that plain dict — the field-by-field contents differ. -/
theorem C1_counterexample :
    default_json_loads exampleReg (default_json_dumps collidingInst) =
      .ok collidingInstDecoded ∧
    collidingInstDecoded ≠ collidingInst :=
  ⟨rfl, by simp [collidingInstDecoded, collidingInst]⟩

/-- C1 (amended): for every instance of a registered data class whose own
state — and the state of every instance nested inside it — is set only
from constructor parameters, whose nested enum members are declared
members of registered enum classes, and in which no plain dict uses the
reserved key, decoding the encoding returns an instance with fields equal
to the original (`wfVal` states exactly these conditions). -/
theorem C1_roundtrip_identity (reg : TypeMap) (cls : String)
    (fields : List (String × PyValue))
    (h : wfVal reg (.inst cls fields) = true) :
    default_json_loads reg (default_json_dumps (.inst cls fields)) =
      .ok (.inst cls fields) :=
  roundtrip_val reg _ h

/-- C1 witness: the round trip at a concrete well-formed instance. -/
theorem C1_roundtrip_identity_witness :
    wfVal exampleReg exampleInst = true ∧
    default_json_loads exampleReg (default_json_dumps exampleInst) =
      .ok exampleInst :=
  ⟨rfl, C1_roundtrip_identity exampleReg "tests#ExampleJSONSerializable"
    [("_cls_type_", .str "tests#ExampleJSONSerializable"),
     ("string", .str "Hello")] rfl⟩

/-- C2: a mapping whose reserved key holds a string identifier that is not
registered makes the decoder hook fail with the unknown-type error (the
`KeyError` of `_type_map[cls_type]`, the spec name for which is
`UnknownTypeError`), and hence any decode whose object entries decode to
that mapping fails the same way. -/
theorem C2_unknown_tag_error (reg : TypeMap) (o : List (String × PyValue))
    (s : String) (h1 : List.lookup "_cls_type_" o = some (.str s))
    (h2 : List.lookup s reg = Option.none) :
    as_json_serializable reg o = .error (.unknownType s) ∧
    ∀ js : List (String × JSON), decodeEntries reg js = .ok o →
      default_json_loads reg (.obj js) = .error (.unknownType s) := by
  have hh : as_json_serializable reg o = .error (.unknownType s) := by
    simp [as_json_serializable, h1, h2]
  refine ⟨hh, fun js hjs => ?_⟩
  simp [default_json_loads, decodeJSON, hjs, hh]

/-- C2 witness: a concrete payload tagged with an unregistered identifier. -/
theorem C2_unknown_tag_error_witness :
    List.lookup "_cls_type_" [("_cls_type_", PyValue.str "m#Unknown")] =
      some (PyValue.str "m#Unknown") ∧
    List.lookup "m#Unknown" exampleReg = Option.none ∧
    as_json_serializable exampleReg [("_cls_type_", PyValue.str "m#Unknown")] =
      .error (.unknownType "m#Unknown") ∧
    default_json_loads exampleReg (.obj [("_cls_type_", JSON.str "m#Unknown")]) =
      .error (.unknownType "m#Unknown") :=
  ⟨rfl, rfl,
    (C2_unknown_tag_error exampleReg [("_cls_type_", PyValue.str "m#Unknown")]
      "m#Unknown" rfl rfl).1,
    (C2_unknown_tag_error exampleReg [("_cls_type_", PyValue.str "m#Unknown")]
      "m#Unknown" rfl rfl).2 [("_cls_type_", JSON.str "m#Unknown")] rfl⟩

/-- C3: a declared member of a registered enum class round-trips to the
declared member itself.  In the embedding an enum member is identified by
its class and declared name, exactly the identity Python singletons carry;
the decode path goes through `cls[name]`, a lookup in the declared member
table, so the result is the declared singleton, not a fresh construction. -/
theorem C3_enum_singleton_identity (reg : TypeMap) (cls n : String)
    (members : List (String × PyValue))
    (hreg : List.lookup cls reg = some (.enum cls members))
    (hmem : (List.lookup n members).isSome = true) :
    default_json_loads reg (default_json_dumps (.enumMember cls n)) =
      .ok (.enumMember cls n) := by
  apply roundtrip_val
  rw [wfVal.eq_def]
  simp [hreg, hmem]

/-- C3 witness: the round trip at a concrete declared member. -/
theorem C3_enum_singleton_identity_witness :
    List.lookup "tests#ExampleEnum" exampleReg =
      some (.enum "tests#ExampleEnum" [("ONE", PyValue.int 1), ("TWO", PyValue.int 2)]) ∧
    (List.lookup "TWO" [("ONE", PyValue.int 1), ("TWO", PyValue.int 2)]).isSome = true ∧
    default_json_loads exampleReg
        (default_json_dumps (.enumMember "tests#ExampleEnum" "TWO")) =
      .ok (.enumMember "tests#ExampleEnum" "TWO") :=
  ⟨rfl, rfl, C3_enum_singleton_identity exampleReg "tests#ExampleEnum" "TWO"
    [("ONE", PyValue.int 1), ("TWO", PyValue.int 2)] rfl rfl⟩

/-- C4: registering a class whose identifier is already a key of the
registry leaves the registry unchanged (so the first registered descriptor
stays in place), and `json_register_class` is total — no error path. -/
theorem C4_register_idempotent (m : TypeMap) (cls : ClassDesc)
    (h : (List.lookup (ClassDesc.fqcn cls) m).isSome = true) :
    json_register_class cls m = m ∧
    ∀ d, List.lookup (ClassDesc.fqcn cls) m = some d →
      List.lookup (ClassDesc.fqcn cls) (json_register_class cls m) = some d := by
  have he : json_register_class cls m = m := by
    simp [json_register_class, h]
  refine ⟨he, fun d hd => ?_⟩
  rw [he]
  exact hd

/-- C4 witness: re-registering the example class with a different
descriptor under the same identifier changes nothing. -/
theorem C4_register_idempotent_witness :
    (List.lookup (ClassDesc.fqcn (.data "tests#ExampleJSONSerializable" []))
      exampleReg).isSome = true ∧
    json_register_class (.data "tests#ExampleJSONSerializable" []) exampleReg =
      exampleReg ∧
    List.lookup "tests#ExampleJSONSerializable"
        (json_register_class (.data "tests#ExampleJSONSerializable" []) exampleReg) =
      some (.data "tests#ExampleJSONSerializable" ["string"]) :=
  ⟨rfl,
    (C4_register_idempotent exampleReg (.data "tests#ExampleJSONSerializable" []) rfl).1,
    (C4_register_idempotent exampleReg (.data "tests#ExampleJSONSerializable" []) rfl).2
      (.data "tests#ExampleJSONSerializable" ["string"]) rfl⟩

/-- C5 counterexample: at the concrete heap, the mapping the default
`to_dict` returns is the field storage of the instance itself — it is not
distinct from it, and writing a key through the returned mapping changes
the fields of the instance. -/
theorem C5_counterexample :
    ¬ (to_dict_ref 0 ≠ 0) ∧
    (heapSet exampleHeap (to_dict_ref 0) "string" (.int 99)).dicts 0 ≠
      exampleHeap.dicts 0 := by
  constructor
  · exact fun h => h rfl
  · intro h
    have h2 : Option.some (PyValue.int 99) = Option.some (PyValue.str "bar") := by
      calc Option.some (PyValue.int 99)
          = List.lookup "string"
              ((heapSet exampleHeap (to_dict_ref 0) "string" (.int 99)).dicts 0) := rfl
        _ = List.lookup "string" (exampleHeap.dicts 0) := by rw [h]
        _ = Option.some (PyValue.str "bar") := rfl
    exact PyValue.noConfusion (Option.some.inj h2)

/-- C5 (amended): the default `to_dict` returns the field mapping of the
instance itself — the same object, not a copy — and that mapping carries
every instance field including the reserved key. -/
theorem C5_to_dict_is_own_storage (h : PyHeap) (self : Nat) (cls : String)
    (rest : List (String × PyValue))
    (hf : h.dicts self = ("_cls_type_", .str cls) :: rest) :
    to_dict_ref self = self ∧
    h.dicts (to_dict_ref self) = ("_cls_type_", .str cls) :: rest ∧
    List.lookup "_cls_type_" (h.dicts (to_dict_ref self)) = some (.str cls) ∧
    JSONSerializable.to_dict (h.dicts self) = h.dicts self := by
  refine ⟨rfl, hf, ?_, rfl⟩
  rw [to_dict_ref, hf, lookup_cons_self]

/-- C5 witness: the amended statement at the concrete heap. -/
theorem C5_to_dict_is_own_storage_witness :
    exampleHeap.dicts 0 =
      ("_cls_type_", PyValue.str "tests#ExampleJSONSerializable") ::
        [("string", PyValue.str "bar")] ∧
    List.lookup "_cls_type_" (exampleHeap.dicts (to_dict_ref 0)) =
      some (PyValue.str "tests#ExampleJSONSerializable") :=
  ⟨rfl, (C5_to_dict_is_own_storage exampleHeap 0 "tests#ExampleJSONSerializable"
    [("string", PyValue.str "bar")] rfl).2.2.1⟩

/-- C6: the default `from_dict` is the constructor applied to the filtered
argument mapping, and that mapping holds exactly the entries of the input
whose keys are constructor parameter names — every other entry, the
reserved key and non-parameter subclass fields included, is dropped. -/
theorem C6_from_dict_filters (fqcn : String) (params : List String)
    (obj : List (String × PyValue)) :
    JSONSerializable.from_dict fqcn params obj =
      construct fqcn params (filtered_args params obj) ∧
    ∀ k v, ((k, v) ∈ filtered_args params obj ↔ ((k, v) ∈ obj ∧ k ∈ params)) := by
  refine ⟨rfl, fun k v => ?_⟩
  unfold filtered_args
  rw [List.mem_filter]
  simp

/-- C6 witness: at a concrete mapping, the parameter entry is kept and a
non-parameter entry is dropped. -/
theorem C6_from_dict_filters_witness :
    (("string", PyValue.str "Hello") ∈
        filtered_args ["string"]
          [("_cls_type_", PyValue.str "tests#ExampleJSONSerializable"),
           ("string", PyValue.str "Hello"), ("child", PyValue.str "child")] ↔
      ((("string", PyValue.str "Hello") ∈
          [("_cls_type_", PyValue.str "tests#ExampleJSONSerializable"),
           ("string", PyValue.str "Hello"), ("child", PyValue.str "child")]) ∧
        "string" ∈ ["string"])) ∧
    (("child", PyValue.str "child") ∈
        filtered_args ["string"]
          [("_cls_type_", PyValue.str "tests#ExampleJSONSerializable"),
           ("string", PyValue.str "Hello"), ("child", PyValue.str "child")] ↔
      ((("child", PyValue.str "child") ∈
          [("_cls_type_", PyValue.str "tests#ExampleJSONSerializable"),
           ("string", PyValue.str "Hello"), ("child", PyValue.str "child")]) ∧
        "child" ∈ ["string"])) :=
  ⟨(C6_from_dict_filters "tests#ExampleJSONSerializable" ["string"] _).2
      "string" (PyValue.str "Hello"),
    (C6_from_dict_filters "tests#ExampleJSONSerializable" ["string"] _).2
      "child" (PyValue.str "child")⟩

/-- C7: the encoded form of an enum member is exactly the two-entry mapping
reserved key ↦ type identifier and `name` ↦ declared member name; the
underlying value `v` of the member is an input of the statement and occurs
nowhere in the output, which is fully determined by the identifier and the
name. -/
theorem C7_enum_to_dict_shape (cls n : String)
    (members : List (String × PyValue)) (v : PyValue)
    (_hmem : List.lookup n members = some v) :
    JSONEnum.to_dict cls n = [("_cls_type_", .str cls), ("name", .str n)] ∧
    (JSONEnum.to_dict cls n).map Prod.fst = ["_cls_type_", "name"] ∧
    encodeValue (.enumMember cls n) = .obj (encodeEntries (JSONEnum.to_dict cls n)) :=
  ⟨rfl, rfl, rfl⟩

/-- C7 witness: the shape at a concrete member, whose underlying value 2 is
absent from the encoding. -/
theorem C7_enum_to_dict_shape_witness :
    List.lookup "TWO" [("ONE", PyValue.int 1), ("TWO", PyValue.int 2)] =
      some (PyValue.int 2) ∧
    JSONEnum.to_dict "tests#ExampleEnum" "TWO" =
      [("_cls_type_", .str "tests#ExampleEnum"), ("name", .str "TWO")] :=
  ⟨rfl, (C7_enum_to_dict_shape "tests#ExampleEnum" "TWO"
    [("ONE", PyValue.int 1), ("TWO", PyValue.int 2)] (PyValue.int 2) rfl).1⟩

/-- C8: with a `name` entry present, `JSONEnum.from_dict` fails with the
unknown-member error (the `KeyError` of `cls[obj[\x22name\x22]]`, the spec
name for which is `UnknownMemberError`) when no declared member has that
name, and returns the declared member found by name lookup when one does. -/
theorem C8_enum_from_dict_lookup (fqcn : String)
    (members : List (String × PyValue)) (obj : List (String × PyValue))
    (n : String) (hname : List.lookup "name" obj = some (.str n)) :
    (List.lookup n members = Option.none →
      JSONEnum.from_dict fqcn members obj = .error (.unknownMember (.str n))) ∧
    ((List.lookup n members).isSome = true →
      JSONEnum.from_dict fqcn members obj = .ok (.enumMember fqcn n)) := by
  constructor
  · intro h
    simp [JSONEnum.from_dict, hname, h]
  · intro h
    simp [JSONEnum.from_dict, hname, h]

/-- C8 witness: both branches at concrete mappings. -/
theorem C8_enum_from_dict_lookup_witness :
    List.lookup "name" [("name", PyValue.str "GONE")] = some (PyValue.str "GONE") ∧
    JSONEnum.from_dict "tests#ExampleEnum" [("ONE", PyValue.int 1), ("TWO", PyValue.int 2)]
        [("name", PyValue.str "GONE")] = .error (.unknownMember (.str "GONE")) ∧
    JSONEnum.from_dict "tests#ExampleEnum" [("ONE", PyValue.int 1), ("TWO", PyValue.int 2)]
        [("name", PyValue.str "ONE")] = .ok (.enumMember "tests#ExampleEnum" "ONE") :=
  ⟨rfl,
    (C8_enum_from_dict_lookup "tests#ExampleEnum"
      [("ONE", PyValue.int 1), ("TWO", PyValue.int 2)]
      [("name", PyValue.str "GONE")] "GONE" rfl).1 rfl,
    (C8_enum_from_dict_lookup "tests#ExampleEnum"
      [("ONE", PyValue.int 1), ("TWO", PyValue.int 2)]
      [("name", PyValue.str "ONE")] "ONE" rfl).2 rfl⟩

/-- C9: a decoded mapping without the reserved key passes through the
decoder hook unchanged, as a plain dict. -/
theorem C9_plain_mapping_unchanged (reg : TypeMap) (o : List (String × PyValue))
    (h : List.lookup "_cls_type_" o = Option.none) :
    as_json_serializable reg o = .ok (.dict o) := by
  simp [as_json_serializable, h]

/-- C9 witness: a concrete untagged mapping passes through. -/
theorem C9_plain_mapping_unchanged_witness :
    List.lookup "_cls_type_" [("fruit", PyValue.str "banana")] = Option.none ∧
    as_json_serializable exampleReg [("fruit", PyValue.str "banana")] =
      .ok (.dict [("fruit", PyValue.str "banana")]) :=
  ⟨rfl, C9_plain_mapping_unchanged exampleReg [("fruit", PyValue.str "banana")] rfl⟩

/-- C10: a decoded mapping whose reserved-key value is not a string passes
through the decoder hook unchanged — no registry lookup, no error. -/
theorem C10_nonstring_tag_unchanged (reg : TypeMap)
    (o : List (String × PyValue)) (v : PyValue)
    (h1 : List.lookup "_cls_type_" o = some v) (h2 : v.isStr = false) :
    as_json_serializable reg o = .ok (.dict o) := by
  cases v
  case str s => simp [PyValue.isStr] at h2
  all_goals simp [as_json_serializable, h1]

/-- C10 witness: a concrete mapping carrying the reserved key with a
numeric value passes through. -/
theorem C10_nonstring_tag_unchanged_witness :
    List.lookup "_cls_type_" [("_cls_type_", PyValue.int 3)] =
      some (PyValue.int 3) ∧
    (PyValue.int 3).isStr = false ∧
    as_json_serializable exampleReg [("_cls_type_", PyValue.int 3)] =
      .ok (.dict [("_cls_type_", PyValue.int 3)]) :=
  ⟨rfl, rfl,
    C10_nonstring_tag_unchanged exampleReg [("_cls_type_", PyValue.int 3)]
      (PyValue.int 3) rfl rfl⟩

end Pytils
